import Mathlib

/-
Verification development for the MCP blockchain address scanner.

Shallow embedding of the Python sources:
  - src/core/etherscan_service.py   (rate-limited client and gateway)
  - src/mcp_etherscan_server/whale_detector.py  (classification, metrics, discovery)
  - src/mcp_etherscan_server/server.py  (compare_whales tool validation)

Modelling conventions:
  - Python floats are modelled as exact rationals (ℚ); wei amounts as Int.
  - Unix timestamps (tx['timeStamp'], datetime.now()) are modelled as Int
    seconds; `timedelta.days` is floor division by 86400 (Int.fdiv).
  - Python `str.lower()` is modelled by `strLower` (ASCII per-character
    lowering, the relevant case for hex addresses).
  - Network effects are modelled by passing fetch outcomes explicitly:
    an HTTP round trip is an `HttpOutcome`, a fetch that may raise is an
    `Option`/`Except` value, and the client's mutable `_last_request_time`
    is explicit state threaded through `make_request`.
  - Raised exceptions become `Except.error` values carrying the message
    structure of the source.
-/

/-- Python str.lower() restricted to the ASCII case used by hex addresses. -/
def strLower (s : String) : String := ⟨s.data.map Char.toLower⟩

/-- WhaleClass enum from whale_detector.py. -/
inductive WhaleClass where
  | shrimp
  | small_whale
  | medium_whale
  | large_whale
  | mega_whale
deriving DecidableEq, Repr

/-- The .value string of each WhaleClass enum member. -/
def WhaleClass.value : WhaleClass → String
  | .shrimp => "shrimp"
  | .small_whale => "small_whale"
  | .medium_whale => "medium_whale"
  | .large_whale => "large_whale"
  | .mega_whale => "mega_whale"

/-- One transaction record as returned by the Etherscan txlist action.
The fields read by whale_detector.py: value and timeStamp are read through
int(), so they are modelled as integers directly. -/
structure Tx where
  hash : String
  fromAddr : String
  toAddr : String
  value : Int
  timeStamp : Int
  blockNumber : String
deriving DecidableEq, Repr

/-- One ERC20 transfer record; analyze_whale reads only contractAddress. -/
structure TokenTransfer where
  contractAddress : String
deriving DecidableEq, Repr

/-- Conversion int(tx['value']) / 10**18 used throughout whale_detector.py. -/
def weiToEth (value : Int) : ℚ := (value : ℚ) / 10 ^ 18

/-- The failure taxonomy of EtherscanService._make_request: an httpx.HTTPError
is re-raised as an HTTP error, an application-level status is raised as an
Etherscan API error. -/
inductive ApiFailure where
  | transport (msg : String)
  | upstream (msg : String)
deriving DecidableEq, Repr

/-- A parsed JSON body {status, message, result}; result's shape depends on
the action, so it is a type parameter. Absent fields are none. -/
structure ApiResponse (α : Type) where
  status : Option String
  message : Option String
  result : Option α
deriving DecidableEq, Repr

/-- Outcome of the HTTP round trip (client.get + raise_for_status + json()):
either an httpx.HTTPError, or a parsed body. -/
inductive HttpOutcome (α : Type) where
  | httpError (msg : String)
  | success (data : ApiResponse α)
deriving DecidableEq, Repr

/-- The client's mutable state: self._last_request_time. -/
structure ClientState where
  last_request_time : ℚ
deriving DecidableEq, Repr

/-- EtherscanService._make_request, lines 23-47, after the throttling sleep:
on HTTP failure the exception propagates and the state is untouched; on a
parsed response the timestamp is set to the completion time FIRST (line 40),
and only then the application-level status check runs (lines 42-43). -/
def make_request {α : Type} (st : ClientState) (completion_time : ℚ)
    (outcome : HttpOutcome α) :
    Except ApiFailure (ApiResponse α) × ClientState :=
  match outcome with
  | .httpError msg => (.error (.transport ("HTTP error: " ++ msg)), st)
  | .success data =>
      let st' : ClientState := { last_request_time := completion_time }
      if data.status = some "0" then
        (.error (.upstream ("Etherscan API error: " ++
            (data.message.getD "Unknown error"))), st')
      else
        (.ok data, st')

/-- Failures visible to gateway callers: a client failure, or the KeyError
raised by the dict subscript data["result"]. -/
inductive GatewayError where
  | api (e : ApiFailure)
  | keyError (key : String)
deriving DecidableEq, Repr

/-- The shape data["result"] shared by get_transactions/get_token_transfers:
a Python dict subscript raises KeyError when the key is absent. -/
def extract_result {α : Type} (r : Except ApiFailure (ApiResponse α)) :
    Except GatewayError α :=
  match r with
  | .error e => .error (.api e)
  | .ok data =>
      match data.result with
      | some v => .ok v
      | none => .error (.keyError "result")

/-- EtherscanService.get_transactions (lines 63-76): builds the txlist query,
funnels through _make_request, returns data["result"]. -/
def get_transactions (r : Except ApiFailure (ApiResponse (List Tx))) :
    Except GatewayError (List Tx) :=
  extract_result r

/-- EtherscanService.get_token_transfers (lines 78-93): same shape over the
tokentx action. -/
def get_token_transfers
    (r : Except ApiFailure (ApiResponse (List TokenTransfer))) :
    Except GatewayError (List TokenTransfer) :=
  extract_result r

/-- Decides whether a client result is an application-level (upstream)
failure, as opposed to success or a transport failure. -/
def is_upstream_error {α : Type} : Except ApiFailure α → Bool
  | .error (.upstream _) => true
  | _ => false

/-- WhaleDetector.KNOWN_WHALES, keys already lowercase in the source. -/
def KNOWN_WHALES : List (String × String) :=
  [("0xde0b295669a9fd93d5f28d9ec85e40f4cb697bae", "Ethereum Foundation"),
   ("0xc02aaa39b223fe8d0a0e5c4f27ead9083c756cc2", "WETH Contract"),
   ("0xa090e606e30bd747d4e6245a1517ebe430f0057e", "Gemini Exchange"),
   ("0x28c6c06298d514db089934071355e5743bf21d60", "Binance Hot Wallet")]

/-- WhaleDetector.EXCHANGE_ADDRESSES. -/
def EXCHANGE_ADDRESSES : List (String × String) :=
  [("0x28c6c06298d514db089934071355e5743bf21d60", "Binance"),
   ("0xa090e606e30bd747d4e6245a1517ebe430f0057e", "Gemini"),
   ("0x6cc5f688a315f3dc28a7781717a9a798a59fda7b", "OKEx"),
   ("0x564286362092d8e7936f0549571a803b203aaced", "FTX")]

/-- WhaleDetector.classify_whale (lines 76-87). -/
def classify_whale (eth_balance : ℚ) : WhaleClass :=
  if eth_balance ≥ 10000 then .mega_whale
  else if eth_balance ≥ 1000 then .large_whale
  else if eth_balance ≥ 100 then .medium_whale
  else if eth_balance ≥ 10 then .small_whale
  else .shrimp

/-- WhaleDetector.get_whale_label: KNOWN_WHALES.get(address.lower()). -/
def get_whale_label (address : String) : Option String :=
  KNOWN_WHALES.lookup (strLower address)

/-- WhaleDetector.is_exchange_address: EXCHANGE_ADDRESSES.get(address.lower()). -/
def is_exchange_address (address : String) : Option String :=
  EXCHANGE_ADDRESSES.lookup (strLower address)

/-- The membership test of _calculate_risk_score line 189:
address.lower() in [addr.lower() for addr in KNOWN_WHALES.keys()]. -/
def is_known_whale (address : String) : Bool :=
  (KNOWN_WHALES.map (fun p => strLower p.1)).contains (strLower address)

/-- Python (now - datetime.fromtimestamp(t)).days: the timedelta's whole-day
count, i.e. floor division of the second difference by 86400. -/
def daysBetween (now t : Int) : Int := (now - t).fdiv 86400

/-- The recent-transaction counter of _calculate_activity_score lines 170-176:
among the first 20 entries of the (descending) list, those within 30 days. -/
def recent_tx_count (now : Int) (transactions : List Tx) : Nat :=
  ((transactions.take 20).filter
    (fun tx => daysBetween now tx.timeStamp ≤ 30)).length

/-- WhaleDetector._calculate_activity_score (lines 165-178). -/
def calculate_activity_score (now : Int) (transactions : List Tx) : ℚ :=
  if transactions = [] then 0
  else min 100 ((recent_tx_count now transactions : ℚ) / 20 * 100)

/-- The large-transaction fraction of _calculate_risk_score line 194. -/
def large_tx_ratio (transactions : List Tx) : ℚ :=
  ((transactions.filter (fun tx => weiToEth tx.value > 100)).length : ℚ) /
    (transactions.length : ℚ)

/-- WhaleDetector._calculate_risk_score (lines 180-205): four independent
signals appended to risk_factors, summed, then clamped to [0, 100]. -/
def calculate_risk_score (address : String) (transactions : List Tx)
    (balance : ℚ) (now : Int) : ℚ :=
  let risk_factors : List Int := []
  let risk_factors :=
    if balance > 1000 then risk_factors ++ [30] else risk_factors
  let risk_factors :=
    if is_known_whale address then risk_factors ++ [-20] else risk_factors
  let risk_factors :=
    if transactions = [] then risk_factors
    else if large_tx_ratio transactions > 1/2 then risk_factors ++ [25]
    else risk_factors
  let risk_factors :=
    match transactions.getLast? with
    | none => risk_factors
    | some first_tx =>
        if daysBetween now first_tx.timeStamp < 30 then risk_factors ++ [40]
        else risk_factors
  let total_risk : Int := risk_factors.foldl (· + ·) 0
  max 0 (min 100 (total_risk : ℚ))

/-- The WhaleMetrics dataclass. Timestamps are Int per the modelling note. -/
structure WhaleMetrics where
  address : String
  eth_balance : ℚ
  whale_class : WhaleClass
  total_transactions : Nat
  large_transactions : Nat
  avg_transaction_value : ℚ
  max_transaction_value : ℚ
  first_seen : Option Int
  last_activity : Option Int
  activity_score : ℚ
  risk_score : ℚ
  token_diversity : Nat
deriving DecidableEq, Repr

/-- WhaleDetector.analyze_whale (lines 89-160), the computation performed on
successfully fetched data: balance (already converted to ETH), transaction
page, token-transfer page, analysis time. -/
def analyze_whale (address : String) (eth_balance : ℚ)
    (transactions : List Tx) (token_transfers : List TokenTransfer)
    (now : Int) : WhaleMetrics :=
  let whale_class := classify_whale eth_balance
  if transactions = [] then
    { address := address
      eth_balance := eth_balance
      whale_class := whale_class
      total_transactions := 0
      large_transactions := 0
      avg_transaction_value := 0
      max_transaction_value := 0
      first_seen := none
      last_activity := none
      activity_score := 0
      risk_score := 0
      token_diversity := 0 }
  else
    let transaction_values := transactions.map (fun tx => weiToEth tx.value)
    { address := address
      eth_balance := eth_balance
      whale_class := whale_class
      total_transactions := transactions.length
      large_transactions :=
        (transactions.filter (fun tx => weiToEth tx.value > 50)).length
      avg_transaction_value :=
        (transaction_values.foldl (· + ·) 0) / (transaction_values.length : ℚ)
      max_transaction_value := (transaction_values.max?).getD 0
      first_seen := (transactions.getLast?).map (·.timeStamp)
      last_activity := (transactions.head?).map (·.timeStamp)
      activity_score := calculate_activity_score now transactions
      risk_score := calculate_risk_score address transactions eth_balance now
      token_diversity :=
        ((token_transfers.map (·.contractAddress)).eraseDups).length }

/-- Rendering of a gateway failure message interpolated by the except clause
of analyze_whale. -/
def GatewayError.describe : GatewayError → String
  | .api (.transport msg) => msg
  | .api (.upstream msg) => msg
  | .keyError key => "KeyError: " ++ key

/-- The fetch-and-compute control flow of analyze_whale: get_balance, then
get_transactions; an empty page returns the zeroed record before any
token-transfer fetch happens; any raised error is wrapped as
"Error analyzing whale: ..." (line 163). -/
def analyze_whale_call (address : String)
    (balance_fetch : Except GatewayError ℚ)
    (tx_fetch : Except GatewayError (List Tx))
    (transfer_fetch : Except GatewayError (List TokenTransfer))
    (now : Int) : Except String WhaleMetrics :=
  match balance_fetch with
  | .error e => .error ("Error analyzing whale: " ++ e.describe)
  | .ok eth_balance =>
      match tx_fetch with
      | .error e => .error ("Error analyzing whale: " ++ e.describe)
      | .ok transactions =>
          if transactions = [] then
            .ok (analyze_whale address eth_balance [] [] now)
          else
            match transfer_fetch with
            | .error e => .error ("Error analyzing whale: " ++ e.describe)
            | .ok token_transfers =>
                .ok (analyze_whale address eth_balance transactions
                      token_transfers now)

/-- The sort key of compare_whales line 236: key=eth_balance, reverse=True,
as a Bool ordering usable by mergeSort. -/
def metrics_balance_desc (a b : WhaleMetrics) : Bool :=
  b.eth_balance ≤ a.eth_balance

/-- WhaleDetector.compare_whales (lines 221-237): each address's analysis
either produced metrics or raised (then it is skipped and the loop
continues); successes are sorted by eth_balance descending. The per-address
outcomes are passed in as Options. -/
def compare_whales (analysis_results : List (Option WhaleMetrics)) :
    List WhaleMetrics :=
  (analysis_results.filterMap id).mergeSort metrics_balance_desc

/-- The compare_whales tool handler in server.py (lines 293-317), after
parsing the comma-separated address list: length validation, detector call,
empty-result check. -/
def compare_whales_tool (addr_list : List String)
    (analyze : String → Option WhaleMetrics) :
    Except String (List WhaleMetrics) :=
  if addr_list.length > 10 then
    .error "Error: Maximum 10 addresses allowed for comparison"
  else if addr_list.length < 2 then
    .error "Error: At least 2 addresses required for comparison"
  else
    let whale_metrics := compare_whales (addr_list.map analyze)
    if whale_metrics = [] then
      .error "Error: Could not analyze any of the provided addresses"
    else
      .ok whale_metrics

/-- The dedup insertion of discover_top_whales lines 317-319: the Python dict
is keyed by addr.lower() and stores the first-seen casing; modelled as the
list of stored values (dict insertion order), with membership tested on the
lowercased key. -/
def add_counterparty (acc : List String) (addr : String) : List String :=
  if (acc.map strLower).contains (strLower addr) then acc else acc ++ [addr]

/-- Per-transaction collection step of discover_top_whales lines 313-319:
only transactions of at least 50 ETH contribute, and then both parties are
inserted (tx['from'] first). -/
def collect_from_tx (acc : List String) (tx : Tx) : List String :=
  if weiToEth tx.value ≥ 50 then
    add_counterparty (add_counterparty acc tx.fromAddr) tx.toAddr
  else acc

/-- Per-seed step of the collection loop of discover_top_whales lines
308-324: a seed whose transaction fetch raises is skipped (except/continue),
otherwise all its transactions are folded in. -/
def collect_step (fetch_txs : String → Option (List Tx))
    (acc : List String) (seed : String) : List String :=
  match fetch_txs seed with
  | none => acc
  | some transactions => transactions.foldl collect_from_tx acc

/-- The collection phase of discover_top_whales (lines 303-324): the first 5
known-whale addresses are seeds. -/
def collect_counterparties (fetch_txs : String → Option (List Tx)) :
    List String :=
  ((KNOWN_WHALES.map Prod.fst).take 5).foldl (collect_step fetch_txs) []

/-- The whale_info dict built by discover_top_whales lines 336-343. -/
structure WhaleInfo where
  address : String
  eth_balance : ℚ
  whale_class : String
  label : Option String
  exchange : Option String
  discovery_method : String
deriving DecidableEq, Repr

/-- The sort key of discover_top_whales line 353. -/
def info_balance_desc (a b : WhaleInfo) : Bool :=
  b.eth_balance ≤ a.eth_balance

/-- The analysis loop of discover_top_whales lines 327-350: for each
collected address, fetch its balance (a failure skips the address) and keep
it, annotated, when the balance is at least min_balance. -/
def whale_candidates (fetch_balance : String → Option ℚ) (min_balance : ℚ)
    (addresses : List String) : List WhaleInfo :=
  addresses.filterMap
    (fun address =>
      match fetch_balance address with
      | none => none
      | some eth_balance =>
          if eth_balance ≥ min_balance then
            some { address := address
                   eth_balance := eth_balance
                   whale_class := (classify_whale eth_balance).value
                   label := get_whale_label address
                   exchange := is_exchange_address address
                   discovery_method := "transaction_analysis" }
          else none)

/-- WhaleDetector.discover_top_whales (lines 298-354): collect counterparties
of large seed transactions, analyze the first 30 collected addresses, sort
by balance descending and return the top 20. -/
def discover_top_whales (fetch_txs : String → Option (List Tx))
    (fetch_balance : String → Option ℚ) (min_balance : ℚ) : List WhaleInfo :=
  ((whale_candidates fetch_balance min_balance
      ((collect_counterparties fetch_txs).take 30)).mergeSort
    info_balance_desc).take 20

/-- The movement dict built by discover_whale_movements lines 262-275. -/
structure MovementInfo where
  hash : String
  from_address : String
  to_address : String
  value_eth : ℚ
  timestamp : Int
  block_number : String
  from_whale_class : String
  to_whale_class : String
  from_label : Option String
  to_label : Option String
  from_exchange : Option String
  to_exchange : Option String
deriving DecidableEq, Repr

/-- WhaleDetector._get_whale_class_cached (lines 289-296): balance fetch plus
classification, any failure collapsing to none. -/
def get_whale_class_cached (fetch_balance : String → Option ℚ)
    (address : String) : Option WhaleClass :=
  (fetch_balance address).map classify_whale

/-- The sort key of discover_whale_movements line 286. -/
def movement_value_desc (a b : MovementInfo) : Bool :=
  b.value_eth ≤ a.value_eth

/-- The per-transaction body of discover_whale_movements lines 254-277:
a transaction at or above min_eth_value becomes an annotated movement
(classification failure of either party yields "unknown"). -/
def movement_of_tx (fetch_balance : String → Option ℚ) (min_eth_value : ℚ)
    (tx : Tx) : Option MovementInfo :=
  if weiToEth tx.value ≥ min_eth_value then
    some { hash := tx.hash
           from_address := tx.fromAddr
           to_address := tx.toAddr
           value_eth := weiToEth tx.value
           timestamp := tx.timeStamp
           block_number := tx.blockNumber
           from_whale_class :=
             ((get_whale_class_cached fetch_balance
                 tx.fromAddr).map WhaleClass.value).getD "unknown"
           to_whale_class :=
             ((get_whale_class_cached fetch_balance
                 tx.toAddr).map WhaleClass.value).getD "unknown"
           from_label := get_whale_label tx.fromAddr
           to_label := get_whale_label tx.toAddr
           from_exchange := is_exchange_address tx.fromAddr
           to_exchange := is_exchange_address tx.toAddr }
  else none

/-- The per-monitored-address loop body of discover_whale_movements lines
250-283: a fetch failure skips the address (except/continue). -/
def movement_step (fetch_txs : String → Option (List Tx))
    (fetch_balance : String → Option ℚ) (min_eth_value : ℚ)
    (acc : List MovementInfo) (address : String) : List MovementInfo :=
  match fetch_txs address with
  | none => acc
  | some transactions =>
      acc ++ transactions.filterMap (movement_of_tx fetch_balance min_eth_value)

/-- WhaleDetector.discover_whale_movements (lines 239-287): monitor the first
10 of KNOWN_WHALES ++ EXCHANGE_ADDRESSES keys, keep transactions at or above
min_eth_value, annotate both parties, sort by value descending, return the
top 50. -/
def discover_whale_movements (fetch_txs : String → Option (List Tx))
    (fetch_balance : String → Option ℚ) (min_eth_value : ℚ) :
    List MovementInfo :=
  (((((KNOWN_WHALES.map Prod.fst ++ EXCHANGE_ADDRESSES.map Prod.fst).take
        10).foldl (movement_step fetch_txs fetch_balance min_eth_value)
      []).mergeSort movement_value_desc)).take 50

/-- The WhaleMovement dataclass (the declared result type of the stub). -/
structure WhaleMovement where
  tx_hash : String
  from_addr : String
  to_addr : String
  value_eth : ℚ
  timestamp : String
  block_number : String
  whale_class_from : WhaleClass
  whale_class_to : WhaleClass
  movement_type : String
deriving DecidableEq, Repr

/-- WhaleDetector.detect_whale_movements (lines 207-211): the body performs
no fetch at all and returns the empty list for every argument combination. -/
def detect_whale_movements (min_value_eth : ℚ) (hours_back : Int) :
    List WhaleMovement :=
  []

/-- Claim C1: classify_whale assigns exactly one class to every nonnegative
balance, the five bands partitioning [0, ∞) with inclusive lower
boundaries: [0,10) shrimp, [10,100) small_whale, [100,1000) medium_whale,
[1000,10000) large_whale, [10000,∞) mega_whale; and the four boundary
examples evaluate as the spec states. -/
theorem classify_whale_partition (b : ℚ) (hb : 0 ≤ b) :
    (classify_whale b = WhaleClass.shrimp ↔ 0 ≤ b ∧ b < 10) ∧
    (classify_whale b = WhaleClass.small_whale ↔ 10 ≤ b ∧ b < 100) ∧
    (classify_whale b = WhaleClass.medium_whale ↔ 100 ≤ b ∧ b < 1000) ∧
    (classify_whale b = WhaleClass.large_whale ↔ 1000 ≤ b ∧ b < 10000) ∧
    (classify_whale b = WhaleClass.mega_whale ↔ 10000 ≤ b) ∧
    classify_whale 9.999999 = WhaleClass.shrimp ∧
    classify_whale 10 = WhaleClass.small_whale ∧
    classify_whale 9999.999999 = WhaleClass.large_whale ∧
    classify_whale 10000 = WhaleClass.mega_whale := by
  have e1 : classify_whale 9.999999 = WhaleClass.shrimp := by
    norm_num [classify_whale]
  have e2 : classify_whale 10 = WhaleClass.small_whale := by
    norm_num [classify_whale]
  have e3 : classify_whale 9999.999999 = WhaleClass.large_whale := by
    norm_num [classify_whale]
  have e4 : classify_whale 10000 = WhaleClass.mega_whale := by
    norm_num [classify_whale]
  refine ⟨?_, ?_, ?_, ?_, ?_, e1, e2, e3, e4⟩ <;>
    · unfold classify_whale
      split_ifs with h1 h2 h3 h4 <;> simp <;>
        first
          | linarith
          | (constructor <;> linarith)
          | (intro hy; linarith)

/-- Claim C1 witness: the partition theorem applied at the concrete balance
42, which the small_whale band accepts. -/
theorem classify_whale_partition_witness :
    classify_whale 42 = WhaleClass.small_whale :=
  (classify_whale_partition 42 (by norm_num)).2.1.mpr (by norm_num)

/-- Claim C2 counterexample: starting from last_request_time 0, a call whose
HTTP round trip parses but whose upstream status is "0" FAILS with an
upstream error and nevertheless stores completion time 5 as the new
last-request timestamp — a failing call does advance the throttle clock. -/
theorem make_request_upstream_advances_clock :
    (make_request (α := Nat) ⟨0⟩ 5
        (.success ⟨some "0", some "NOTOK", none⟩)).1 =
      .error (.upstream "Etherscan API error: NOTOK") ∧
    (make_request (α := Nat) ⟨0⟩ 5
        (.success ⟨some "0", some "NOTOK", none⟩)).2.last_request_time = 5 := by
  constructor <;> rfl

/-- Claim C2 amended: the stored timestamp is updated exactly when the HTTP
round trip completes (response received, 2xx, body parsed): a transport
failure leaves the state unchanged, but a parsed response sets the timestamp
to the completion time even when the upstream status then makes the call
fail with an application-level error. -/
theorem make_request_timestamp_update {α : Type} (st : ClientState) (t : ℚ)
    (msg : String) (data : ApiResponse α) :
    (make_request st t (.httpError msg : HttpOutcome α)).2 = st ∧
    (make_request st t (.success data)).2.last_request_time = t := by
  refine ⟨rfl, ?_⟩
  by_cases h : data.status = some "0" <;> simp [make_request, h]

/-- Claim C3: when the balance fetch succeeds and the transaction fetch
returns an empty list, the analysis returns without error the zeroed
metrics record — counts 0, average and maximum 0, activity and risk scores
0, token diversity 0, both timestamps absent — whatever the token-transfer
fetch would have yielded (it is never consulted). -/
theorem analyze_whale_empty_zeroed (address : String) (eth_balance : ℚ)
    (transfer_fetch : Except GatewayError (List TokenTransfer)) (now : Int) :
    analyze_whale_call address (.ok eth_balance) (.ok []) transfer_fetch now =
      .ok { address := address
            eth_balance := eth_balance
            whale_class := classify_whale eth_balance
            total_transactions := 0
            large_transactions := 0
            avg_transaction_value := 0
            max_transaction_value := 0
            first_seen := none
            last_activity := none
            activity_score := 0
            risk_score := 0
            token_diversity := 0 } := by
  rfl

/-- Claim C7: for a parsed response whose status field carries the upstream
contract's "0" or "1", the request fails with an application-level
(upstream) error exactly when the status is not "1" — equivalently, exactly
when it is "0". -/
theorem make_request_upstream_iff {α : Type} (st : ClientState) (t : ℚ)
    (data : ApiResponse α)
    (hs : data.status = some "0" ∨ data.status = some "1") :
    (is_upstream_error (make_request st t (.success data)).1 = true ↔
      data.status ≠ some "1") ∧
    (is_upstream_error (make_request st t (.success data)).1 = true ↔
      data.status = some "0") := by
  rcases hs with h | h <;> simp [make_request, is_upstream_error, h]

/-- Claim C7 witness: the iff applied to the concrete failing response with
status "0", well-formed by the left disjunct. -/
theorem make_request_upstream_iff_witness :
    is_upstream_error
      (make_request (α := Nat) ⟨0⟩ 1
        (.success ⟨some "0", some "NOTOK", none⟩)).1 = true :=
  (make_request_upstream_iff ⟨0⟩ 1 ⟨some "0", some "NOTOK", none⟩
    (Or.inl rfl)).2.mpr rfl

/-- Claim C8 counterexample: a successful upstream response (status "1")
whose body has no "result" key makes get_transactions fail with the
KeyError of the dict subscript rather than yield the empty sequence. -/
theorem get_transactions_missing_result_counterexample :
    get_transactions (make_request ⟨0⟩ 1
        (.success ⟨some "1", some "OK", none⟩)).1 =
      .error (.keyError "result") := by
  rfl

/-- Claim C8 amended: for both list-returning gateway operations, a
response that passes the status check but has no "result" field produces
the KeyError failure of the dict subscript data["result"], not an empty
sequence. -/
theorem gateway_missing_result_errors (st st' : ClientState) (t t' : ℚ)
    (dtx : ApiResponse (List Tx)) (dtr : ApiResponse (List TokenTransfer))
    (h1 : dtx.status ≠ some "0") (h2 : dtx.result = none)
    (h3 : dtr.status ≠ some "0") (h4 : dtr.result = none) :
    get_transactions (make_request st t (.success dtx)).1 =
      .error (.keyError "result") ∧
    get_token_transfers (make_request st' t' (.success dtr)).1 =
      .error (.keyError "result") := by
  constructor
  · simp [get_transactions, extract_result, make_request, h1, h2]
  · simp [get_token_transfers, extract_result, make_request, h3, h4]

/-- Claim C8 witness: the amended statement at concrete responses with
status "1" and absent result fields. -/
theorem gateway_missing_result_errors_witness :
    get_transactions (make_request ⟨0⟩ 2
        (.success ⟨some "1", none, none⟩)).1 =
      .error (.keyError "result") ∧
    get_token_transfers (make_request ⟨0⟩ 2
        (.success ⟨some "1", none, none⟩)).1 =
      .error (.keyError "result") :=
  gateway_missing_result_errors ⟨0⟩ ⟨0⟩ 2 2
    ⟨some "1", none, none⟩ ⟨some "1", none, none⟩
    (by simp) rfl (by simp) rfl

/-- Claim C4: the risk score is clamped to [0, 100] for every combination of
address, transaction list, balance and analysis time; and it equals 0 when
the balance is at most 1000, the address is not in the known-entity
registry, the fraction of fetched transactions above 100 ETH does not
exceed one half, and the oldest fetched transaction is at least 30 whole
days old. -/
theorem calculate_risk_score_spec :
    (∀ (address : String) (transactions : List Tx) (balance : ℚ) (now : Int),
      0 ≤ calculate_risk_score address transactions balance now ∧
      calculate_risk_score address transactions balance now ≤ 100) ∧
    (∀ (address : String) (transactions : List Tx) (balance : ℚ) (now : Int),
      balance ≤ 1000 →
      is_known_whale address = false →
      (transactions ≠ [] → large_tx_ratio transactions ≤ 1/2) →
      (∀ first_tx, transactions.getLast? = some first_tx →
        30 ≤ daysBetween now first_tx.timeStamp) →
      calculate_risk_score address transactions balance now = 0) := by
  constructor
  · intro address transactions balance now
    unfold calculate_risk_score
    constructor
    · exact le_max_left _ _
    · exact max_le (by norm_num) (min_le_left _ _)
  · intro address transactions balance now hb hk hr ha
    have hb' : ¬ balance > 1000 := not_lt.mpr hb
    by_cases he : transactions = []
    · subst he
      simp [calculate_risk_score, hb', hk]
    · rcases hl : transactions.getLast? with _ | first_tx
      · exact absurd (List.getLast?_eq_none_iff.mp hl) he
      · have h25 : ¬ large_tx_ratio transactions > 1/2 := not_lt.mpr (hr he)
        have h40 : ¬ daysBetween now first_tx.timeStamp < 30 :=
          not_lt.mpr (ha first_tx hl)
        simp only [calculate_risk_score, if_neg hb', hk, Bool.false_eq_true,
          if_false, if_neg he, if_neg h25, hl, if_neg h40]
        norm_num

/-- Claim C4 witness: the zero case at a concrete unknown address holding
500 ETH with one small 40-day-old transaction, where the score is 0. -/
theorem calculate_risk_score_spec_witness :
    calculate_risk_score "0xabc" [⟨"0xh1", "0xaaa", "0xbbb", 10 ^ 18, 0, "1"⟩]
      500 (86400 * 40) = 0 :=
  calculate_risk_score_spec.2 "0xabc"
    [⟨"0xh1", "0xaaa", "0xbbb", 10 ^ 18, 0, "1"⟩] 500 (86400 * 40)
    (by norm_num)
    (by decide)
    (fun _ => by norm_num [large_tx_ratio, weiToEth])
    (fun first_tx h => by
      simp only [List.getLast?_singleton, Option.some.injEq] at h
      subst h
      decide)

/-- Claim C5: the activity score equals min(100, recentCount/20*100) for
every transaction list, where recentCount counts, among the 20 most recent
transactions, those within the last 30 days; it is monotonically
non-decreasing in that count, always lies in [0, 100], and is 0 for the
empty list. -/
theorem calculate_activity_score_spec :
    (∀ (now : Int) (transactions : List Tx),
      calculate_activity_score now transactions =
        min 100 ((recent_tx_count now transactions : ℚ) / 20 * 100)) ∧
    (∀ (now : Int) (t1 t2 : List Tx),
      recent_tx_count now t1 ≤ recent_tx_count now t2 →
      calculate_activity_score now t1 ≤ calculate_activity_score now t2) ∧
    (∀ (now : Int) (transactions : List Tx),
      0 ≤ calculate_activity_score now transactions ∧
      calculate_activity_score now transactions ≤ 100) ∧
    (∀ now : Int, calculate_activity_score now [] = 0) := by
  have formula : ∀ (now : Int) (transactions : List Tx),
      calculate_activity_score now transactions =
        min 100 ((recent_tx_count now transactions : ℚ) / 20 * 100) := by
    intro now transactions
    unfold calculate_activity_score
    by_cases he : transactions = []
    · rw [if_pos he, he]
      norm_num [recent_tx_count]
    · rw [if_neg he]
  refine ⟨formula, ?_, ?_, ?_⟩
  · intro now t1 t2 h
    rw [formula, formula]
    have h' : (recent_tx_count now t1 : ℚ) ≤ recent_tx_count now t2 := by
      exact_mod_cast h
    exact min_le_min le_rfl (by linarith)
  · intro now transactions
    rw [formula]
    constructor
    · exact le_min (by norm_num) (by positivity)
    · exact min_le_left _ _
  · intro now
    rfl

/-- Claim C5 witness: monotonicity applied to the empty list and a
one-transaction list whose transaction is recent. -/
theorem calculate_activity_score_spec_witness :
    calculate_activity_score 0 [] ≤
      calculate_activity_score 0 [⟨"0xh1", "0xaaa", "0xbbb", 0, 0, "1"⟩] :=
  calculate_activity_score_spec.2.1 0 []
    [⟨"0xh1", "0xaaa", "0xbbb", 0, 0, "1"⟩] (by decide)

/-- Executable reading of "sorted strictly descending by ETH balance":
every adjacent pair strictly decreases. -/
def strictly_desc_by_balance : List WhaleMetrics → Bool
  | [] => true
  | [_] => true
  | a :: b :: rest =>
      decide (b.eth_balance < a.eth_balance) &&
        strictly_desc_by_balance (b :: rest)

/-- A metrics record carrying only an address and a balance, as produced by
an analysis whose other fields are irrelevant to sorting. -/
def sampleMetrics (address : String) (bal : ℚ) : WhaleMetrics :=
  { address := address
    eth_balance := bal
    whale_class := classify_whale bal
    total_transactions := 0
    large_transactions := 0
    avg_transaction_value := 0
    max_transaction_value := 0
    first_seen := none
    last_activity := none
    activity_score := 0
    risk_score := 0
    token_diversity := 0 }

/-- Claim C6 counterexample: a valid two-address comparison in which both
analyses succeed with the same balance 5 returns both records, whose
adjacent balances are equal — the result is sorted non-strictly, NOT
strictly descending as the claim states. -/
theorem compare_whales_equal_balances_not_strict :
    compare_whales_tool ["0xa1", "0xa2"] (fun a => some (sampleMetrics a 5)) =
      .ok [sampleMetrics "0xa1" 5, sampleMetrics "0xa2" 5] ∧
    strictly_desc_by_balance
      [sampleMetrics "0xa1" 5, sampleMetrics "0xa2" 5] = false := by
  have hsorted : compare_whales
      [some (sampleMetrics "0xa1" 5), some (sampleMetrics "0xa2" 5)] =
      [sampleMetrics "0xa1" 5, sampleMetrics "0xa2" 5] := by
    unfold compare_whales
    rw [show List.filterMap id
        [some (sampleMetrics "0xa1" 5), some (sampleMetrics "0xa2" 5)] =
        [sampleMetrics "0xa1" 5, sampleMetrics "0xa2" 5] from rfl]
    exact List.mergeSort_of_sorted
      (by simp [metrics_balance_desc, sampleMetrics])
  constructor
  · unfold compare_whales_tool
    rw [show (["0xa1", "0xa2"].map fun a => some (sampleMetrics a 5)) =
        [some (sampleMetrics "0xa1" 5), some (sampleMetrics "0xa2" 5)]
      from rfl]
    rw [hsorted]
    norm_num
    intro hcontra
    simp at hcontra
  · simp [strictly_desc_by_balance, sampleMetrics]

/-- Claim C6 amended: the tool rejects fewer than 2 or more than 10
addresses with a validation error, and the comparison returns exactly the
successfully analyzed results sorted non-strictly descending
(non-increasing) by ETH balance. -/
theorem compare_whales_tool_spec (addr_list : List String)
    (analyze : String → Option WhaleMetrics)
    (results : List (Option WhaleMetrics)) :
    (addr_list.length < 2 ∨ 10 < addr_list.length →
      ∃ msg, compare_whales_tool addr_list analyze = .error msg) ∧
    (compare_whales results).Perm (results.filterMap id) ∧
    List.Pairwise (fun a b : WhaleMetrics => b.eth_balance ≤ a.eth_balance)
      (compare_whales results) := by
  refine ⟨?_, List.mergeSort_perm _ _, ?_⟩
  · intro h
    unfold compare_whales_tool
    by_cases h10 : addr_list.length > 10
    · rw [if_pos h10]
      exact ⟨_, rfl⟩
    · have h2 : addr_list.length < 2 := by
        rcases h with h | h
        · exact h
        · exact absurd h h10
      rw [if_neg h10, if_pos h2]
      exact ⟨_, rfl⟩
  · have htrans : ∀ a b c : WhaleMetrics, metrics_balance_desc a b = true →
        metrics_balance_desc b c = true → metrics_balance_desc a c = true := by
      intro a b c hab hbc
      simp only [metrics_balance_desc, decide_eq_true_eq] at *
      linarith
    have htotal : ∀ a b : WhaleMetrics,
        (metrics_balance_desc a b || metrics_balance_desc b a) = true := by
      intro a b
      simp only [metrics_balance_desc, Bool.or_eq_true, decide_eq_true_eq]
      exact le_total _ _
    exact (List.sorted_mergeSort htrans htotal (results.filterMap id)).imp
      (fun hab => by simpa [metrics_balance_desc] using hab)

/-- Claim C6 witness: the validation reject applied to a concrete
single-address input. -/
theorem compare_whales_tool_spec_witness :
    ∃ msg, compare_whales_tool ["0xa1"] (fun _ => none) = .error msg :=
  (compare_whales_tool_spec ["0xa1"] (fun _ => none) []).1 (Or.inl (by decide))

/-- Provenance through one dedup insertion: an element of the extended
collection was already present or is the inserted address. -/
theorem mem_add_counterparty {acc : List String} {addr a : String}
    (h : a ∈ add_counterparty acc addr) : a ∈ acc ∨ a = addr := by
  unfold add_counterparty at h
  by_cases hc : ((acc.map strLower).contains (strLower addr)) = true
  · rw [if_pos hc] at h
    exact Or.inl h
  · rw [if_neg hc] at h
    rcases List.mem_append.mp h with h' | h'
    · exact Or.inl h'
    · exact Or.inr (List.mem_singleton.mp h')

/-- Provenance through one transaction: a newly collected address comes
from a transaction of at least 50 ETH and is one of its two parties. -/
theorem mem_collect_from_tx {acc : List String} {tx : Tx} {a : String}
    (h : a ∈ collect_from_tx acc tx) :
    a ∈ acc ∨ (weiToEth tx.value ≥ 50 ∧ (a = tx.fromAddr ∨ a = tx.toAddr)) := by
  unfold collect_from_tx at h
  by_cases hv : weiToEth tx.value ≥ 50
  · rw [if_pos hv] at h
    rcases mem_add_counterparty h with h' | h'
    · rcases mem_add_counterparty h' with h'' | h''
      · exact Or.inl h''
      · exact Or.inr ⟨hv, Or.inl h''⟩
    · exact Or.inr ⟨hv, Or.inr h'⟩
  · rw [if_neg hv] at h
    exact Or.inl h

/-- Provenance through the fold over one seed's transactions. -/
theorem mem_foldl_collect (txs : List Tx) (acc : List String) (a : String)
    (h : a ∈ txs.foldl collect_from_tx acc) :
    a ∈ acc ∨ ∃ tx ∈ txs, weiToEth tx.value ≥ 50 ∧
      (a = tx.fromAddr ∨ a = tx.toAddr) := by
  induction txs generalizing acc with
  | nil => exact Or.inl h
  | cons t ts ih =>
      simp only [List.foldl_cons] at h
      rcases ih _ h with h' | ⟨tx, htx, hp⟩
      · rcases mem_collect_from_tx h' with h'' | hp
        · exact Or.inl h''
        · exact Or.inr ⟨t, List.mem_cons_self t ts, hp⟩
      · exact Or.inr ⟨tx, List.mem_cons_of_mem t htx, hp⟩

/-- Provenance through the fold over the seed addresses. -/
theorem mem_foldl_collect_step (seeds : List String)
    (fetch_txs : String → Option (List Tx)) (acc : List String) (a : String)
    (h : a ∈ seeds.foldl (collect_step fetch_txs) acc) :
    a ∈ acc ∨ ∃ seed ∈ seeds, ∃ transactions,
      fetch_txs seed = some transactions ∧
        ∃ tx ∈ transactions, weiToEth tx.value ≥ 50 ∧
          (a = tx.fromAddr ∨ a = tx.toAddr) := by
  induction seeds generalizing acc with
  | nil => exact Or.inl h
  | cons s ss ih =>
      simp only [List.foldl_cons] at h
      rcases ih _ h with h' | ⟨seed, hs, rest⟩
      · unfold collect_step at h'
        rcases hf : fetch_txs s with _ | txs <;> rw [hf] at h'
        · exact Or.inl h'
        · rcases mem_foldl_collect _ _ _ h' with h'' | ⟨tx, htx, hp⟩
          · exact Or.inl h''
          · exact Or.inr
              ⟨s, List.mem_cons_self s ss, txs, hf, tx, htx, hp⟩
      · exact Or.inr ⟨seed, List.mem_cons_of_mem s hs, rest⟩

/-- One dedup insertion preserves distinctness of the lowercased keys. -/
theorem nodup_add_counterparty {acc : List String} (addr : String)
    (h : (acc.map strLower).Nodup) :
    ((add_counterparty acc addr).map strLower).Nodup := by
  unfold add_counterparty
  by_cases hc : ((acc.map strLower).contains (strLower addr)) = true
  · rw [if_pos hc]
    exact h
  · rw [if_neg hc]
    rw [List.map_append]
    rw [List.nodup_append]
    refine ⟨h, List.nodup_singleton _, ?_⟩
    intro x hx hx'
    simp only [List.map_cons, List.map_nil, List.mem_singleton] at hx'
    subst hx'
    have hnotin : strLower addr ∉ acc.map strLower := by simpa using hc
    exact hnotin hx

/-- One transaction step preserves distinctness of the lowercased keys. -/
theorem nodup_collect_from_tx {acc : List String} (tx : Tx)
    (h : (acc.map strLower).Nodup) :
    ((collect_from_tx acc tx).map strLower).Nodup := by
  unfold collect_from_tx
  by_cases hv : weiToEth tx.value ≥ 50
  · rw [if_pos hv]
    exact nodup_add_counterparty _ (nodup_add_counterparty _ h)
  · rw [if_neg hv]
    exact h

/-- The fold over one seed's transactions preserves key distinctness. -/
theorem nodup_foldl_collect (txs : List Tx) (acc : List String)
    (h : (acc.map strLower).Nodup) :
    (((txs.foldl collect_from_tx acc)).map strLower).Nodup := by
  induction txs generalizing acc with
  | nil => exact h
  | cons t ts ih =>
      simp only [List.foldl_cons]
      exact ih _ (nodup_collect_from_tx t h)

/-- The fold over the seed addresses preserves key distinctness. -/
theorem nodup_foldl_collect_step (seeds : List String)
    (fetch_txs : String → Option (List Tx)) (acc : List String)
    (h : (acc.map strLower).Nodup) :
    ((seeds.foldl (collect_step fetch_txs) acc).map strLower).Nodup := by
  induction seeds generalizing acc with
  | nil => exact h
  | cons s ss ih =>
      simp only [List.foldl_cons]
      refine ih _ ?_
      unfold collect_step
      rcases fetch_txs s with _ | txs
      · exact h
      · exact nodup_foldl_collect _ _ h

/-- Every kept candidate passed the balance filter against the fetch and
carries the classification/label/exchange/provenance annotations of its
address. -/
theorem mem_whale_candidates {fetch_balance : String → Option ℚ}
    {min_balance : ℚ} {addresses : List String} {w : WhaleInfo}
    (h : w ∈ whale_candidates fetch_balance min_balance addresses) :
    min_balance ≤ w.eth_balance ∧
    fetch_balance w.address = some w.eth_balance ∧
    w.address ∈ addresses ∧
    w.whale_class = (classify_whale w.eth_balance).value ∧
    w.label = get_whale_label w.address ∧
    w.exchange = is_exchange_address w.address ∧
    w.discovery_method = "transaction_analysis" := by
  unfold whale_candidates at h
  obtain ⟨address, haddr, hf⟩ := List.mem_filterMap.mp h
  rcases hb : fetch_balance address with _ | bal
  · simp [hb] at hf
  · simp only [hb] at hf
    by_cases hmin : bal ≥ min_balance
    · rw [if_pos hmin] at hf
      obtain rfl := Option.some.inj hf
      exact ⟨hmin, hb, haddr, rfl, rfl, rfl, rfl⟩
    · simp [hmin] at hf

/-- Completeness of the analysis loop: every listed address whose balance
fetch succeeds with at least min_balance contributes its annotated entry to
the kept list. -/
theorem whale_candidates_complete {fetch_balance : String → Option ℚ}
    {min_balance : ℚ} {addresses : List String} {address : String} {bal : ℚ}
    (haddr : address ∈ addresses) (hb : fetch_balance address = some bal)
    (hmin : min_balance ≤ bal) :
    ({ address := address
       eth_balance := bal
       whale_class := (classify_whale bal).value
       label := get_whale_label address
       exchange := is_exchange_address address
       discovery_method := "transaction_analysis" } : WhaleInfo) ∈
      whale_candidates fetch_balance min_balance addresses := by
  unfold whale_candidates
  refine List.mem_filterMap.mpr ⟨address, haddr, ?_⟩
  simp [hb, hmin]

/-- First-seen casing: inserting an address whose lowercased key is already
present leaves the collection unchanged (the stored casing of the first
occurrence wins); a new key is appended verbatim at the end. -/
theorem add_counterparty_first_seen (acc : List String) (addr : String) :
    (strLower addr ∈ acc.map strLower → add_counterparty acc addr = acc) ∧
    (strLower addr ∉ acc.map strLower →
      add_counterparty acc addr = acc ++ [addr]) := by
  constructor
  · intro hmem
    unfold add_counterparty
    rw [if_pos (by simpa using hmem)]
  · intro hmem
    unfold add_counterparty
    rw [if_neg (by simpa using hmem)]

/-- Claim C9: discover_top_whales collects counterparty addresses only from
seed transactions of at least 50 ETH (each stored address is one of the two
parties of such a transaction of a successfully fetched seed among the
first 5 known whales); the collection is deduplicated on the lowercased key
and an insertion whose key is already present changes nothing, so the
first-seen casing is preserved; the kept list built from the first 30
collected addresses contains EXACTLY the entries whose fetched balance is
at least min_balance (an entry for every such address, and nothing else),
each annotated with classification, label, exchange and the
"transaction_analysis" provenance; and the returned list is the kept list
sorted descending by balance and truncated to its first 20 entries — hence
of length at most 20, sorted, and sound. -/
theorem discover_top_whales_spec (fetch_txs : String → Option (List Tx))
    (fetch_balance : String → Option ℚ) (min_balance : ℚ) :
    (∀ a ∈ collect_counterparties fetch_txs,
      ∃ seed ∈ (KNOWN_WHALES.map Prod.fst).take 5,
        ∃ transactions, fetch_txs seed = some transactions ∧
          ∃ tx ∈ transactions, weiToEth tx.value ≥ 50 ∧
            (a = tx.fromAddr ∨ a = tx.toAddr)) ∧
    ((collect_counterparties fetch_txs).map strLower).Nodup ∧
    (∀ (acc : List String) (addr : String),
      (strLower addr ∈ acc.map strLower → add_counterparty acc addr = acc) ∧
      (strLower addr ∉ acc.map strLower →
        add_counterparty acc addr = acc ++ [addr])) ∧
    (∀ address ∈ (collect_counterparties fetch_txs).take 30, ∀ bal : ℚ,
      fetch_balance address = some bal → min_balance ≤ bal →
      ({ address := address
         eth_balance := bal
         whale_class := (classify_whale bal).value
         label := get_whale_label address
         exchange := is_exchange_address address
         discovery_method := "transaction_analysis" } : WhaleInfo) ∈
        whale_candidates fetch_balance min_balance
          ((collect_counterparties fetch_txs).take 30)) ∧
    (∀ w ∈ whale_candidates fetch_balance min_balance
        ((collect_counterparties fetch_txs).take 30),
      min_balance ≤ w.eth_balance ∧
      fetch_balance w.address = some w.eth_balance ∧
      w.address ∈ (collect_counterparties fetch_txs).take 30 ∧
      w.whale_class = (classify_whale w.eth_balance).value ∧
      w.label = get_whale_label w.address ∧
      w.exchange = is_exchange_address w.address ∧
      w.discovery_method = "transaction_analysis") ∧
    (∃ sorted_kept : List WhaleInfo,
      sorted_kept.Perm (whale_candidates fetch_balance min_balance
        ((collect_counterparties fetch_txs).take 30)) ∧
      List.Pairwise (fun a b : WhaleInfo => b.eth_balance ≤ a.eth_balance)
        sorted_kept ∧
      discover_top_whales fetch_txs fetch_balance min_balance =
        sorted_kept.take 20) ∧
    (discover_top_whales fetch_txs fetch_balance min_balance).length ≤ 20 ∧
    List.Pairwise (fun a b : WhaleInfo => b.eth_balance ≤ a.eth_balance)
      (discover_top_whales fetch_txs fetch_balance min_balance) ∧
    (∀ w ∈ discover_top_whales fetch_txs fetch_balance min_balance,
      min_balance ≤ w.eth_balance ∧
      fetch_balance w.address = some w.eth_balance ∧
      w.address ∈ (collect_counterparties fetch_txs).take 30) := by
  have htrans : ∀ a b c : WhaleInfo, info_balance_desc a b = true →
      info_balance_desc b c = true → info_balance_desc a c = true := by
    intro a b c hab hbc
    simp only [info_balance_desc, decide_eq_true_eq] at *
    linarith
  have htotal : ∀ a b : WhaleInfo,
      (info_balance_desc a b || info_balance_desc b a) = true := by
    intro a b
    simp only [info_balance_desc, Bool.or_eq_true, decide_eq_true_eq]
    exact le_total _ _
  have hp := List.sorted_mergeSort htrans htotal
    (whale_candidates fetch_balance min_balance
      ((collect_counterparties fetch_txs).take 30))
  have hp' := hp.imp
    (fun {a b} hab => by
      simpa [info_balance_desc] using hab :
        ∀ {a b : WhaleInfo}, info_balance_desc a b = true →
          b.eth_balance ≤ a.eth_balance)
  refine ⟨?_, ?_, ?_, ?_, ?_, ?_, ?_, ?_, ?_⟩
  · intro a ha
    unfold collect_counterparties at ha
    rcases mem_foldl_collect_step _ _ _ _ ha with h | h
    · simp at h
    · exact h
  · exact nodup_foldl_collect_step _ _ _ (by simp)
  · intro acc addr
    exact add_counterparty_first_seen acc addr
  · intro address haddr bal hb hmin
    exact whale_candidates_complete haddr hb hmin
  · intro w hw
    exact mem_whale_candidates hw
  · exact ⟨(whale_candidates fetch_balance min_balance
        ((collect_counterparties fetch_txs).take 30)).mergeSort
          info_balance_desc,
      List.mergeSort_perm _ info_balance_desc, hp', rfl⟩
  · exact List.length_take_le _ _
  · exact List.Pairwise.sublist (List.take_sublist _ _) hp'
  · intro w hw
    have hw1 : w ∈ (whale_candidates fetch_balance min_balance
        ((collect_counterparties fetch_txs).take 30)).mergeSort
          info_balance_desc :=
      List.take_subset _ _ hw
    have hw2 := (List.mergeSort_perm _ info_balance_desc).subset hw1
    obtain ⟨h1, h2, h3, _⟩ := mem_whale_candidates hw2
    exact ⟨h1, h2, h3⟩

/-- A 60 ETH transaction from 0xAAA to 0xBBB, a concrete discovery
environment example. -/
def tx0 : Tx := ⟨"0xh1", "0xAAA", "0xBBB", 60 * 10 ^ 18, 0, "1"⟩

/-- A fetch environment in which every address has exactly one transaction,
tx0. -/
def fetch_txs0 : String → Option (List Tx) := fun _ => some [tx0]

/-- Claim C9 witness: in the fetch_txs0 environment, the collected address
"0xBBB" is traced by the theorem to a seed transaction of at least 50 ETH
having it as a party. -/
theorem discover_top_whales_spec_witness :
    ∃ seed ∈ (KNOWN_WHALES.map Prod.fst).take 5,
      ∃ transactions, fetch_txs0 seed = some transactions ∧
        ∃ tx ∈ transactions, weiToEth tx.value ≥ 50 ∧
          ("0xBBB" = tx.fromAddr ∨ "0xBBB" = tx.toAddr) :=
  (discover_top_whales_spec fetch_txs0 (fun _ => none) 0).1 "0xBBB" (by
    have hval : weiToEth tx0.value ≥ 50 := by norm_num [weiToEth, tx0]
    have hstep : ∀ (acc : List String) (seed : String),
        collect_step fetch_txs0 acc seed =
          add_counterparty (add_counterparty acc "0xAAA") "0xBBB" := by
      intro acc seed
      simp only [collect_step, fetch_txs0, List.foldl_cons, List.foldl_nil]
      unfold collect_from_tx
      rw [if_pos hval]
      rfl
    show "0xBBB" ∈ collect_counterparties fetch_txs0
    unfold collect_counterparties
    have h5 : (KNOWN_WHALES.map Prod.fst).take 5 =
        ["0xde0b295669a9fd93d5f28d9ec85e40f4cb697bae",
         "0xc02aaa39b223fe8d0a0e5c4f27ead9083c756cc2",
         "0xa090e606e30bd747d4e6245a1517ebe430f0057e",
         "0x28c6c06298d514db089934071355e5743bf21d60"] := by decide
    rw [h5]
    simp only [List.foldl_cons, List.foldl_nil, hstep]
    decide)

/-- The movement record produced from tx0 when no party balance can be
fetched (both classifications collapse to "unknown"). -/
def mrec0 : MovementInfo :=
  { hash := "0xh1"
    from_address := "0xAAA"
    to_address := "0xBBB"
    value_eth := weiToEth tx0.value
    timestamp := 0
    block_number := "1"
    from_whale_class := "unknown"
    to_whale_class := "unknown"
    from_label := get_whale_label "0xAAA"
    to_label := get_whale_label "0xBBB"
    from_exchange := is_exchange_address "0xAAA"
    to_exchange := is_exchange_address "0xBBB" }

/-- Claim C10: detect_whale_movements is an unconditional stub — for every
argument combination it returns the empty list, and its definition consults
no fetch environment at all — while discover_whale_movements, given the
concrete fetch_txs0 environment (one 60 ETH transaction per monitored
address, min 50), returns 8 movements: the stub is distinct from the
implemented discovery. -/
theorem detect_whale_movements_stub :
    (∀ (min_value_eth : ℚ) (hours_back : Int),
      detect_whale_movements min_value_eth hours_back = []) ∧
    (discover_whale_movements fetch_txs0 (fun _ => none) 50).length = 8 := by
  refine ⟨fun _ _ => rfl, ?_⟩
  have hval : weiToEth tx0.value ≥ 50 := by norm_num [weiToEth, tx0]
  have hmt : movement_of_tx (fun _ => none) 50 tx0 = some mrec0 := by
    unfold movement_of_tx
    rw [if_pos hval]
    rfl
  have hstep : ∀ (acc : List MovementInfo) (address : String),
      movement_step fetch_txs0 (fun _ => none) 50 acc address =
        acc ++ [mrec0] := by
    intro acc address
    simp only [movement_step, fetch_txs0, List.filterMap_cons, hmt,
      List.filterMap_nil]
  have h10 : (KNOWN_WHALES.map Prod.fst ++
      EXCHANGE_ADDRESSES.map Prod.fst).take 10 =
      ["0xde0b295669a9fd93d5f28d9ec85e40f4cb697bae",
       "0xc02aaa39b223fe8d0a0e5c4f27ead9083c756cc2",
       "0xa090e606e30bd747d4e6245a1517ebe430f0057e",
       "0x28c6c06298d514db089934071355e5743bf21d60",
       "0x28c6c06298d514db089934071355e5743bf21d60",
       "0xa090e606e30bd747d4e6245a1517ebe430f0057e",
       "0x6cc5f688a315f3dc28a7781717a9a798a59fda7b",
       "0x564286362092d8e7936f0549571a803b203aaced"] := by decide
  unfold discover_whale_movements
  rw [h10]
  simp only [List.foldl_cons, List.foldl_nil, hstep]
  rw [List.length_take]
  rw [(List.mergeSort_perm _ movement_value_desc).length_eq]
  simp
